import Mathlib

/-!
Verification of the `xc` interactive picker (`cmd/xc/interactive.go`).

The file shallowly embeds the two cores of the program: the shell-history
synchronizer (`addToShellHistory` and its helpers) and the interactive
selection state machine (`model.Update`, the render delegate and
`interactivePicker`).  Side effects (file appends, the refresh script, the
runner, printing) are made explicit as event traces; the environment
(SHELL variable, home directory, success/failure of each external step) is
passed in as data.
-/

namespace XC

/-- Boolean substring test on character lists, mirroring Go
`strings.Contains` (case-sensitive; the empty pattern matches). -/
def listContains : List Char → List Char → Bool
  | s, pat =>
    if pat.isPrefixOf s then true
    else
      match s with
      | [] => false
      | _ :: t => listContains t pat

/-- Go `strings.Contains(s, sub)`. -/
def strContains (s sub : String) : Bool :=
  listContains s.toList sub.toList

/-- Go `filepath.Join(dir, name)` for the simple two-component case used by
the program. -/
def filepathJoin (dir name : String) : String :=
  dir ++ "/" ++ name

/-- Errors the Go code can return, one constructor per distinct source of
failure. -/
inductive GoError where
  /-- `user.Current()` failed. -/
  | userLookup
  /-- `os.OpenFile` failed for the given path. -/
  | openFail (path : String)
  /-- `file.WriteString` failed for the given path. -/
  | writeFail (path : String)
  /-- the refresh script exited with an error. -/
  | refreshFail
  /-- `run.NewRunner` failed. -/
  | parseFail
  /-- `runner.Run` failed. -/
  | runFail
deriving DecidableEq

/-- An observable side effect of the history synchronizer. -/
inductive Event where
  /-- a string was appended to the file at `path`. -/
  | append (path line : String)
  /-- the external refresh script was invoked. -/
  | refresh
deriving DecidableEq

/-- The environment the synchronizer runs in: the `SHELL` variable, the
result of the user lookup, and whether each external step succeeds. -/
structure SyncEnv where
  /-- value of `os.Getenv("SHELL")` (empty string when unset). -/
  shell : String
  /-- whether `user.Current()` succeeds. -/
  userOk : Bool
  /-- `currentUser.HomeDir`. -/
  homeDir : String
  /-- whether `os.OpenFile` succeeds on a given path. -/
  openOk : String → Bool
  /-- whether `file.WriteString` succeeds on a given path. -/
  writeOk : String → Bool
  /-- whether the refresh script exits successfully. -/
  refreshOk : Bool
  /-- `time.Now().Unix()`. -/
  now : Int

/-- `appendToHistoryFile`: open the file in append-create mode and write
the string once; the append is recorded as an event only when both the
open and the write succeed. -/
def appendToHistoryFile (env : SyncEnv) (historyFile command : String) :
    Except GoError Unit × List Event :=
  if env.openOk historyFile then
    if env.writeOk historyFile then
      (Except.ok (), [Event.append historyFile command])
    else (Except.error (GoError.writeFail historyFile), [])
  else (Except.error (GoError.openFail historyFile), [])

/-- `appendToBashHistory`: append `command + "\n"`. -/
def appendToBashHistory (env : SyncEnv) (historyFile command : String) :
    Except GoError Unit × List Event :=
  appendToHistoryFile env historyFile (command ++ "\n")

/-- `callRefreshScript`: run the zero-argument refresh script; the
invocation happens whether or not the script then fails. -/
def callRefreshScript (env : SyncEnv) : Except GoError Unit × List Event :=
  if env.refreshOk then (Except.ok (), [Event.refresh])
  else (Except.error GoError.refreshFail, [Event.refresh])

/-- `appendToZshHistory`: append `": <timestamp>:0;<command>\n"`, then on
success invoke the refresh script; a refresh failure is returned but the
append is not undone. -/
def appendToZshHistory (env : SyncEnv) (historyFile command : String) :
    Except GoError Unit × List Event :=
  let formattedCommand := ": " ++ toString env.now ++ ":0;" ++ command ++ "\n"
  let r := appendToHistoryFile env historyFile formattedCommand
  match r.1 with
  | Except.error e => (Except.error e, r.2)
  | Except.ok _ =>
    let r2 := callRefreshScript env
    (r2.1, r.2 ++ r2.2)

/-- `addToShellHistory`: resolve the home directory, inspect `SHELL`, and
dispatch: the `bash` substring is tested first, then `zsh`; any other
shell is a silent no-op. -/
def addToShellHistory (env : SyncEnv) (command : String) :
    Except GoError Unit × List Event :=
  if env.userOk then
    if strContains env.shell "bash" then
      appendToBashHistory env (filepathJoin env.homeDir ".bash_history") command
    else if strContains env.shell "zsh" then
      appendToZshHistory env (filepathJoin env.homeDir ".zsh_history") command
    else (Except.ok (), [])
  else (Except.error GoError.userLookup, [])

/-! ## Selection state machine -/

/-- `models.Task`: the only field this core reads is `Name`. -/
structure Task where
  name : String
deriving DecidableEq

/-- A list entry.  The program only ever inserts `taskItem` wrappers, but
the `list.Item` interface admits other entry kinds, which the render
delegate must tolerate (the failed type assertion branch). -/
inductive ListItem where
  /-- `taskItem`, wrapping a `models.Task`. -/
  | task (t : Task)
  | other (tag : String)
deriving DecidableEq

/-- `taskItem.FilterValue` returns the task name; other entry kinds carry
their own key. -/
def ListItem.FilterValue : ListItem → String
  | ListItem.task t => t.name
  | ListItem.other tag => tag

/-- The `bubbles` `list.Model` (external dependency), reduced to the state
this program observes: the ordered items, the active filter text, the
highlighted index into the visible subset, and the rendering dimensions. -/
structure ListModel where
  items : List ListItem
  filter : String
  index : Nat
  width : Int
  height : Int
deriving DecidableEq

/-- The visible subset: all items when the filter is empty, otherwise the
items whose filter value contains the filter text as a substring. -/
def ListModel.visibleItems (lm : ListModel) : List ListItem :=
  if lm.filter = "" then lm.items
  else lm.items.filter (fun it => strContains it.FilterValue lm.filter)

/-- `list.Model.Index()`. -/
def ListModel.Index (lm : ListModel) : Nat := lm.index

/-- `list.Model.SelectedItem()`: the visible item at the highlighted
index, or `none` when the subset is empty or the index out of range. -/
def ListModel.SelectedItem (lm : ListModel) : Option ListItem :=
  lm.visibleItems[lm.index]?

/-- `list.Model.SetWidth`. -/
def ListModel.SetWidth (lm : ListModel) (w : Int) : ListModel :=
  { lm with width := w }

/-- Modelled from the spec: the external bubbles `list.Model.Update`
fallback (navigation and filter editing), which is not part of this
repository.  Navigation clamps the highlighted index within the visible
subset; a printable character extends the filter text and re-clamps the
index.  No theorem below depends on the details of this function beyond
its type (in particular, it cannot touch `choice` or `quitting`). -/
def ListModel.updateMsg (lm : ListModel) (key : String) : ListModel :=
  if key = "up" then { lm with index := lm.index - 1 }
  else if key = "down" then
    { lm with index := min (lm.index + 1) (lm.visibleItems.length - 1) }
  else if key.length = 1 then
    let lm2 := { lm with filter := lm.filter ++ key }
    { lm2 with index := min lm2.index (lm2.visibleItems.length - 1) }
  else lm

/-- A `tea.Msg`, restricted to the kinds the program distinguishes. -/
inductive Msg where
  /-- `tea.WindowSizeMsg`. -/
  | windowSize (width : Int)
  /-- `tea.KeyMsg`, identified by its `String()` form. -/
  | key (s : String)
deriving DecidableEq

/-- A `tea.Cmd` as returned by this program: `nil` or `tea.Quit`. -/
inductive Cmd where
  | none
  | quit
deriving DecidableEq

/-- The program's `model`: the list, the chosen task (if any), and the
quitting flag. -/
structure model where
  list : ListModel
  choice : Option Task
  quitting : Bool
deriving DecidableEq

/-- `model.Update`: resize sets the width only; `ctrl+c`/`q`/`esc` quit;
`enter` records the selected item as the choice when the type assertion
succeeds and quits in every case; all other messages go to the list. -/
def model.Update (m : model) (msg : Msg) : model × Cmd :=
  match msg with
  | Msg.windowSize w => ({ m with list := m.list.SetWidth w }, Cmd.none)
  | Msg.key keypress =>
    if keypress = "ctrl+c" ∨ keypress = "q" ∨ keypress = "esc" then
      ({ m with quitting := true }, Cmd.quit)
    else if keypress = "enter" then
      match m.list.SelectedItem with
      | some (ListItem.task t) => ({ m with choice := some t, quitting := true }, Cmd.quit)
      | _ => ({ m with quitting := true }, Cmd.quit)
    else
      ({ m with list := m.list.updateMsg keypress }, Cmd.none)

/-! ## Render delegate -/

/-- `itemStyle.Render` (external lipgloss style, `PaddingLeft(4)`):
left padding before the text; the colour escape codes are not modelled. -/
def itemStyle.Render (s : String) : String := "    " ++ s

/-- `selectedItemStyle.Render` (external lipgloss style,
`PaddingLeft(2)` plus a foreground colour, not modelled). -/
def selectedItemStyle.Render (s : String) : String := "  " ++ s

/-- `itemDelegate.Render`: the string written to the writer for one slot.
A failed `taskItem` type assertion returns before anything is written,
modelled as the empty output. -/
def itemDelegate.Render (m : ListModel) (index : Nat) (listItem : ListItem) : String :=
  match listItem with
  | ListItem.other _ => ""
  | ListItem.task t =>
    let str := t.name
    if index = m.Index then selectedItemStyle.Render ("> " ++ str)
    else itemStyle.Render str

/-! ## Picker controller -/

/-- the `listItemWidth` constant. -/
def listItemWidth : Int := 20

/-- the `listItemHeight` constant. -/
def listItemHeight : Int := 6

/-- The model `interactivePicker` builds before running the program:
every task wrapped as a `taskItem`, no filter, index 0, no choice. -/
def initModel (tasks : List Task) : model :=
  { list :=
      { items := tasks.map ListItem.task
        filter := ""
        index := 0
        width := listItemWidth
        height := listItemHeight + tasks.length }
    choice := Option.none
    quitting := false }

/-- `tea.Program.Run`: feed the queued messages to `model.Update` until a
`tea.Quit` command or the queue ends, returning the final model. -/
def runLoop (m : model) (msgs : List Msg) : model :=
  match msgs with
  | [] => m
  | msg :: rest =>
    let r := m.Update msg
    match r.2 with
    | Cmd.quit => r.1
    | Cmd.none => runLoop r.1 rest

/-- An observable side effect of `interactivePicker` after the session. -/
inductive PickEvent where
  /-- `runner.Run(ctx, name, nil)` was invoked. -/
  | runnerRun (taskName : String)
  /-- `fmt.Println(s)`. -/
  | print (s : String)
  /-- an effect of `addToShellHistory`. -/
  | syncEv (e : Event)
deriving DecidableEq

/-- The environment `interactivePicker` runs in: whether `run.NewRunner`
and `runner.Run` succeed, and the synchronizer's environment. -/
structure PickerEnv where
  newRunnerOk : Bool
  runOk : Bool
  sync : SyncEnv

/-- `interactivePicker`: run the session on the queued messages; with no
choice return nil; otherwise build the runner, run the task, print the
task name (before checking the run error), and on success synchronize the
shell history with `"xc " + name`. -/
def interactivePicker (env : PickerEnv) (tasks : List Task) (msgs : List Msg) :
    Except GoError Unit × List PickEvent :=
  let tm := runLoop (initModel tasks) msgs
  match tm.choice with
  | Option.none => (Except.ok (), [])
  | some task =>
    if env.newRunnerOk then
      let evs := [PickEvent.runnerRun task.name, PickEvent.print ("Task name: " ++ task.name)]
      if env.runOk then
        let r := addToShellHistory env.sync ("xc " ++ task.name)
        (r.1, evs ++ r.2.map PickEvent.syncEv)
      else (Except.error GoError.runFail, evs)
    else (Except.error GoError.parseFail, [])

/-! ## Concrete instances used by the witness theorems -/

/-- A concrete synchronizer environment with `SHELL=/bin/zsh` in which
every external step succeeds. -/
def envZ : SyncEnv :=
  { shell := "/bin/zsh", userOk := true, homeDir := "/home/u"
    openOk := fun _ => true, writeOk := fun _ => true
    refreshOk := true, now := 1700000000 }

/-- `envZ` with `SHELL=/bin/bash`. -/
def envB : SyncEnv :=
  { envZ with shell := "/bin/bash" }

/-- A concrete task. -/
def t0 : Task := { name := "build" }

/-- The model built for an empty task list: its visible subset is empty. -/
def m0 : model := initModel []

/-- The model built for the one-task list `[t0]`. -/
def mW : model := initModel [t0]

/-- A concrete picker environment in which everything succeeds. -/
def env0 : PickerEnv := { newRunnerOk := true, runOk := true, sync := envZ }

/-- A concrete picker environment in which the task run fails. -/
def envR : PickerEnv := { newRunnerOk := true, runOk := false, sync := envZ }

/-- Whether a message is the `enter` key (the only message that can set
the choice). -/
def isEnterMsg : Msg → Bool
  | Msg.key k => k = "enter"
  | _ => false

/-! ## Helper lemmas -/

/-- `l.isPrefixOf l` holds. -/
theorem isPrefixOf_self_eq_true (l : List Char) : l.isPrefixOf l = true := by
  induction l with
  | nil => rfl
  | cons a t ih => simp [List.isPrefixOf, ih]

/-- a list contains its own suffix. -/
theorem listContains_append_self (p s : List Char) : listContains (p ++ s) s = true := by
  induction p with
  | nil =>
    unfold listContains
    rw [List.nil_append, isPrefixOf_self_eq_true]
    rfl
  | cons c p ih =>
    rw [List.cons_append]
    unfold listContains
    split
    · rfl
    · exact ih

/-- a string contains its own suffix. -/
theorem strContains_append_left (p s : String) : strContains (p ++ s) s = true := by
  unfold strContains
  rw [show (p ++ s).toList = p.toList ++ s.toList from String.data_append p s]
  exact listContains_append_self _ _

/-- a cancel key always yields quit with the quitting flag set. -/
theorem Update_cancel (m : model) (k : String)
    (h : k = "ctrl+c" ∨ k = "q" ∨ k = "esc") :
    m.Update (Msg.key k) = ({ m with quitting := true }, Cmd.quit) := by
  simp only [model.Update]
  rw [if_pos h]

/-- a resize only sets the width and returns no command. -/
theorem Update_windowSize (m : model) (w : Int) :
    m.Update (Msg.windowSize w) =
      ({ m with list := { m.list with width := w } }, Cmd.none) := rfl

/-- any other key goes to the list update and returns no command. -/
theorem Update_other_key (m : model) (s : String)
    (hc : ¬(s = "ctrl+c" ∨ s = "q" ∨ s = "esc")) (he : s ≠ "enter") :
    m.Update (Msg.key s) = ({ m with list := m.list.updateMsg s }, Cmd.none) := by
  simp only [model.Update]
  rw [if_neg hc, if_neg he]

/-- unfolding `runLoop` one step when the update quits. -/
theorem runLoop_cons_quit (m m' : model) (msg : Msg) (rest : List Msg)
    (h : m.Update msg = (m', Cmd.quit)) : runLoop m (msg :: rest) = m' := by
  simp [runLoop, h]

/-- unfolding `runLoop` one step when the update continues. -/
theorem runLoop_cons_none (m m' : model) (msg : Msg) (rest : List Msg)
    (h : m.Update msg = (m', Cmd.none)) : runLoop m (msg :: rest) = runLoop m' rest := by
  simp [runLoop, h]

/-- the run loop on messages with no `enter`, ending in a cancel key,
preserves the choice and sets the quitting flag. -/
theorem runLoop_no_enter_then_cancel (pre : List Msg) (k : String) :
    ∀ m : model, (k = "ctrl+c" ∨ k = "q" ∨ k = "esc") →
      (∀ msg ∈ pre, isEnterMsg msg = false) →
      (runLoop m (pre ++ [Msg.key k])).choice = m.choice ∧
      (runLoop m (pre ++ [Msg.key k])).quitting = true := by
  induction pre with
  | nil =>
    intro m hk _
    rw [List.nil_append, runLoop_cons_quit m _ _ _ (Update_cancel m k hk)]
    exact ⟨rfl, rfl⟩
  | cons msg rest ih =>
    intro m hk hpre
    have hmsg := hpre msg (List.mem_cons_self _ _)
    have hrest : ∀ x ∈ rest, isEnterMsg x = false :=
      fun x hx => hpre x (List.mem_cons_of_mem _ hx)
    rw [List.cons_append]
    cases msg with
    | windowSize w =>
      rw [runLoop_cons_none m _ _ _ (Update_windowSize m w)]
      exact ih _ hk hrest
    | key s =>
      by_cases hc : s = "ctrl+c" ∨ s = "q" ∨ s = "esc"
      · rw [runLoop_cons_quit m _ _ _ (Update_cancel m s hc)]
        exact ⟨rfl, rfl⟩
      · have he : s ≠ "enter" := of_decide_eq_false hmsg
        rw [runLoop_cons_none m _ _ _ (Update_other_key m s hc he)]
        exact ih _ hk hrest

/-! ## Theorems: shell history synchronizer -/

/-- Claim C1: when `SHELL` contains `"zsh"` and not `"bash"` and the home
lookup and the file open/write succeed, the synchronizer appends exactly
the line `": T:0;c\n"` to `.zsh_history` under the home directory and
invokes the refresh step exactly once (whether or not that step then
succeeds). -/
theorem zsh_appends_line_and_refreshes_once (env : SyncEnv) (c : String)
    (hz : strContains env.shell "zsh" = true)
    (hb : strContains env.shell "bash" = false)
    (hu : env.userOk = true)
    (ho : env.openOk (filepathJoin env.homeDir ".zsh_history") = true)
    (hw : env.writeOk (filepathJoin env.homeDir ".zsh_history") = true) :
    (addToShellHistory env c).2 =
      [Event.append (filepathJoin env.homeDir ".zsh_history")
          (": " ++ toString env.now ++ ":0;" ++ c ++ "\n"),
        Event.refresh] := by
  simp only [addToShellHistory, hu, hb, hz, if_true, Bool.false_eq_true, if_false,
    appendToZshHistory, appendToHistoryFile, ho, hw, callRefreshScript]
  cases env.refreshOk <;> simp

/-- Witness for C1 at a concrete environment and command. -/
theorem zsh_appends_line_and_refreshes_once_witness :
    (addToShellHistory envZ "xc build").2 =
      [Event.append (filepathJoin envZ.homeDir ".zsh_history")
          (": " ++ toString envZ.now ++ ":0;" ++ "xc build" ++ "\n"),
        Event.refresh] :=
  zsh_appends_line_and_refreshes_once envZ "xc build"
    (by decide) (by decide) rfl rfl rfl

/-- Claim C2: when `SHELL` contains `"bash"` and the home lookup and the
file open/write succeed, the synchronizer appends exactly the line
`c ++ "\n"` to `.bash_history` under the home directory, returns success,
and never invokes the refresh step. -/
theorem bash_appends_plain_line (env : SyncEnv) (c : String)
    (hb : strContains env.shell "bash" = true)
    (hu : env.userOk = true)
    (ho : env.openOk (filepathJoin env.homeDir ".bash_history") = true)
    (hw : env.writeOk (filepathJoin env.homeDir ".bash_history") = true) :
    addToShellHistory env c =
      (Except.ok (),
        [Event.append (filepathJoin env.homeDir ".bash_history") (c ++ "\n")]) := by
  simp [addToShellHistory, hu, hb, appendToBashHistory, appendToHistoryFile, ho, hw]

/-- Witness for C2 at a concrete environment and command. -/
theorem bash_appends_plain_line_witness :
    addToShellHistory envB "xc build" =
      (Except.ok (),
        [Event.append (filepathJoin envB.homeDir ".bash_history") ("xc build" ++ "\n")]) :=
  bash_appends_plain_line envB "xc build" (by decide) rfl rfl rfl

/-- Claim C5: when `SHELL` contains neither `"bash"` nor `"zsh"` (for
instance when it is empty because the variable is absent), and the home
lookup succeeded, the synchronizer writes nothing, invokes no refresh
step, and returns success. -/
theorem unknown_shell_is_noop (env : SyncEnv) (c : String)
    (hu : env.userOk = true)
    (hb : strContains env.shell "bash" = false)
    (hz : strContains env.shell "zsh" = false) :
    addToShellHistory env c = (Except.ok (), []) := by
  simp [addToShellHistory, hu, hb, hz]

/-- Witness for C5 at a concrete environment with an unrecognized shell. -/
theorem unknown_shell_is_noop_witness :
    addToShellHistory { envZ with shell := "/usr/bin/fish" } "xc build" =
      (Except.ok (), []) :=
  unknown_shell_is_noop { envZ with shell := "/usr/bin/fish" } "xc build"
    rfl (by decide) (by decide)

/-- Claim C6: when the zsh history append succeeds but the refresh step
fails, the synchronizer returns the refresh failure as its error and the
appended history line remains in the trace (it is not undone). -/
theorem zsh_refresh_failure_surfaced (env : SyncEnv) (c : String)
    (hz : strContains env.shell "zsh" = true)
    (hb : strContains env.shell "bash" = false)
    (hu : env.userOk = true)
    (ho : env.openOk (filepathJoin env.homeDir ".zsh_history") = true)
    (hw : env.writeOk (filepathJoin env.homeDir ".zsh_history") = true)
    (hr : env.refreshOk = false) :
    addToShellHistory env c =
      (Except.error GoError.refreshFail,
        [Event.append (filepathJoin env.homeDir ".zsh_history")
            (": " ++ toString env.now ++ ":0;" ++ c ++ "\n"),
          Event.refresh]) := by
  simp [addToShellHistory, hu, hb, hz, appendToZshHistory, appendToHistoryFile,
    ho, hw, callRefreshScript, hr]

/-- Witness for C6 at a concrete environment whose refresh step fails. -/
theorem zsh_refresh_failure_surfaced_witness :
    addToShellHistory { envZ with refreshOk := false } "xc build" =
      (Except.error GoError.refreshFail,
        [Event.append
            (filepathJoin envZ.homeDir ".zsh_history")
            (": " ++ toString envZ.now ++ ":0;" ++
              "xc build" ++ "\n"),
          Event.refresh]) :=
  zsh_refresh_failure_surfaced { envZ with refreshOk := false } "xc build"
    (by decide) (by decide) rfl rfl rfl rfl

/-- Claim C9: the `bash` substring is tested before `zsh`, so a `SHELL`
value containing both substrings takes the bash branch: the plain line
goes to `.bash_history`, and `.zsh_history` and the refresh step are
never touched. -/
theorem bash_branch_wins_over_zsh (env : SyncEnv) (c : String)
    (hb : strContains env.shell "bash" = true)
    (_hz : strContains env.shell "zsh" = true)
    (hu : env.userOk = true)
    (ho : env.openOk (filepathJoin env.homeDir ".bash_history") = true)
    (hw : env.writeOk (filepathJoin env.homeDir ".bash_history") = true) :
    addToShellHistory env c =
      (Except.ok (),
        [Event.append (filepathJoin env.homeDir ".bash_history") (c ++ "\n")]) := by
  simp [addToShellHistory, hu, hb, appendToBashHistory, appendToHistoryFile, ho, hw]

/-- Witness for C9 at a `SHELL` value containing both substrings. -/
theorem bash_branch_wins_over_zsh_witness :
    addToShellHistory { envZ with shell := "/bin/bash-zsh" } "xc build" =
      (Except.ok (),
        [Event.append (filepathJoin envZ.homeDir ".bash_history")
            ("xc build" ++ "\n")]) :=
  bash_branch_wins_over_zsh { envZ with shell := "/bin/bash-zsh" } "xc build"
    (by decide) (by decide) rfl rfl rfl

/-! ## Theorems: selection state machine and controller -/

/-- Claim C3, counterexample: on the model built from the empty task list
the visible subset is empty and the machine is not terminated, yet
pressing `enter` sets the quitting flag — the claimed no-op does not
hold. -/
theorem enter_on_empty_subset_not_noop :
    m0.list.visibleItems = [] ∧ m0.quitting = false ∧
      (m0.Update (Msg.key "enter")).1.quitting = true := by decide

/-- Claim C3 as amended: when the highlighted entry of the visible subset
exists and is a task item, `enter` terminates the machine with that task
chosen; when no entry is selected (in particular when the visible subset
is empty), `enter` still terminates the machine — quitting is set, the
choice stays as it was — rather than being a no-op. -/
theorem enter_terminates (m : model) :
    (∀ t, m.list.SelectedItem = some (ListItem.task t) →
        m.Update (Msg.key "enter") =
          ({ m with choice := some t, quitting := true }, Cmd.quit)) ∧
    (m.list.SelectedItem = Option.none →
        m.Update (Msg.key "enter") = ({ m with quitting := true }, Cmd.quit)) := by
  constructor
  · intro t ht
    simp [model.Update, ht]
  · intro h
    simp [model.Update, h]

/-- Witness for the amended C3 at the one-task model. -/
theorem enter_terminates_witness :
    mW.Update (Msg.key "enter") =
      ({ mW with choice := some t0, quitting := true }, Cmd.quit) :=
  (enter_terminates mW).1 t0 (by decide)

/-- Claim C4: pressing a cancel key before any `enter` terminates the
machine cancelled — quitting set, no choice — and the controller then
returns success without invoking the runner, printing, or touching the
history (an empty event trace). -/
theorem cancel_before_commit (env : PickerEnv) (tasks : List Task)
    (pre : List Msg) (k : String)
    (_hne : tasks ≠ [])
    (hk : k = "ctrl+c" ∨ k = "q" ∨ k = "esc")
    (hpre : ∀ msg ∈ pre, isEnterMsg msg = false) :
    (runLoop (initModel tasks) (pre ++ [Msg.key k])).choice = Option.none ∧
    (runLoop (initModel tasks) (pre ++ [Msg.key k])).quitting = true ∧
    interactivePicker env tasks (pre ++ [Msg.key k]) = (Except.ok (), []) := by
  obtain ⟨h1, h2⟩ := runLoop_no_enter_then_cancel pre k (initModel tasks) hk hpre
  have h1' : (runLoop (initModel tasks) (pre ++ [Msg.key k])).choice = Option.none := h1
  refine ⟨h1', h2, ?_⟩
  simp only [interactivePicker, h1']

/-- Witness for C4: one task, an immediate `ctrl+c`. -/
theorem cancel_before_commit_witness :
    interactivePicker env0 [t0] ([] ++ [Msg.key "ctrl+c"]) = (Except.ok (), []) :=
  (cancel_before_commit env0 [t0] [] "ctrl+c" (by decide) (Or.inl rfl)
    (by simp)).2.2

/-- Claim C7: a window resize changes the rendering width only — the
items, filter, index, height, choice and quitting flag are untouched and
no command is issued. -/
theorem resize_sets_width_only (m : model) (w : Int) :
    m.Update (Msg.windowSize w) =
      ({ m with list := { m.list with width := w } }, Cmd.none) := rfl

/-- Claim C8: the render delegate writes nothing (and returns normally)
for a list entry that is not a task item, and for a task item its output
contains the task's name. -/
theorem render_writes_name_or_nothing (lm : ListModel) (idx : Nat) :
    (∀ tag, itemDelegate.Render lm idx (ListItem.other tag) = "") ∧
    (∀ t, strContains (itemDelegate.Render lm idx (ListItem.task t)) t.name = true) := by
  constructor
  · intro tag
    rfl
  · intro t
    by_cases h : idx = lm.Index
    · have : itemDelegate.Render lm idx (ListItem.task t) = "  > " ++ t.name := by
        simp [itemDelegate.Render, h, selectedItemStyle.Render]
        rw [← String.append_assoc]
        rfl
      rw [this]
      exact strContains_append_left _ _
    · have : itemDelegate.Render lm idx (ListItem.task t) = "    " ++ t.name := by
        simp [itemDelegate.Render, h, itemStyle.Render]
      rw [this]
      exact strContains_append_left _ _

/-- Claim C10: whenever the session ends with a chosen task and the
runner is constructed, the line `"Task name: " ++ name` is printed — the
statement quantifies over every environment, so it holds whether the
run succeeded or failed. -/
theorem task_name_printed_regardless (env : PickerEnv) (tasks : List Task)
    (msgs : List Msg) (t : Task)
    (hn : env.newRunnerOk = true)
    (hc : (runLoop (initModel tasks) msgs).choice = some t) :
    PickEvent.print ("Task name: " ++ t.name) ∈ (interactivePicker env tasks msgs).2 := by
  simp only [interactivePicker, hc, hn, if_true]
  cases env.runOk
  · simp
  · simp

/-- Witness for C10 at an environment whose run fails. -/
theorem task_name_printed_regardless_witness :
    PickEvent.print ("Task name: " ++ t0.name) ∈
      (interactivePicker envR [t0] [Msg.key "enter"]).2 :=
  task_name_printed_regardless envR [t0] [Msg.key "enter"] t0 rfl (by decide)

end XC
